import Mathlib

/-!
Verification development for the cim-agent-alchemist agent service.

The definitions below are a shallow embedding of the Rust sources:
`src/agent.rs`, `src/nats_integration.rs`, `src/service.rs`, `src/error.rs`,
`src/config.rs`, `src/model.rs`.  Conventions:

* `serde_json::Value` is embedded as `JsonValue` (numbers as `Int`; no claim
  performs arithmetic on JSON numbers).
* `chrono::DateTime<Utc>` timestamps are embedded as `Nat` (only ordering and
  equality matter to the claims).
* `uuid::Uuid::new_v4()` and `chrono::Utc::now()` are external inputs; they are
  passed as explicit parameters (`uuid : Nat -> String`, `now : Nat`).
* `HashMap<String, _>` state is embedded as an association list with
  insert-or-update (`assocPut`) and lookup (`assocGet`); the dialog and
  workflow containers of the external `cim-domain-dialog` /
  `cim-domain-workflow` crates are embedded with exactly the fields the
  sources construct and read, and the workflow node container follows the
  specification text ("ordered mapping of step-key to step-definition").
* `f32` / `f64` arithmetic (`progress_percentage`, backoff multiplier) is
  embedded over `Rat`; every concrete value appearing in a theorem below is
  exactly representable, so no rounding is abstracted away at those points.
* fallible Rust code returning `Result<T, AgentError>` becomes
  `Except AgentError T`; the external model provider is a parameter of type
  `ModelRequest -> Except AgentError ModelResponse`, matching how
  `agent.rs` invokes it.
-/

/-- Embedding of `serde_json::Value`. -/
inductive JsonValue where
  | null : JsonValue
  | bool (b : Bool) : JsonValue
  | num (n : Int) : JsonValue
  | str (s : String) : JsonValue
  | arr (xs : List JsonValue) : JsonValue
  | obj (fields : List (String × JsonValue)) : JsonValue

/-- `value[key]` on a JSON value: field lookup on objects, `Null` otherwise
(the behavior of `serde_json::Value::index`). -/
def JsonValue.get (j : JsonValue) (key : String) : JsonValue :=
  match j with
  | .obj fields => (go fields)
  | _ => .null
where
  go : List (String × JsonValue) → JsonValue
    | [] => .null
    | (k, v) :: rest => if k = key then v else go rest

/-- `Value::as_str`. -/
def JsonValue.asStr : JsonValue → Option String
  | .str s => some s
  | _ => none

/-- Empty JSON object, i.e. `serde_json::Value::Object(Map::new())`. -/
def JsonValue.emptyObj : JsonValue := .obj []

/-- Embedding of `AgentError` from `src/error.rs` (variants carrying external
library errors carry their display text). -/
inductive AgentError where
  | Configuration (msg : String)
  | Nats (msg : String)
  | ModelProvider (msg : String)
  | Domain (domain : String) (msg : String)
  | Dialog (msg : String)
  | Identity (msg : String)
  | Graph (msg : String)
  | Workflow (msg : String)
  | Serialization (msg : String)
  | Network (msg : String)
  | Timeout (msg : String)
  | NotFound (msg : String)
  | PermissionDenied (msg : String)
  | ServiceUnavailable (msg : String)
  | Internal (msg : String)
deriving DecidableEq

/-- The `thiserror` display strings of `AgentError` (`e.to_string()`). -/
def AgentError.toDisplay : AgentError → String
  | .Configuration m => "Configuration error: " ++ m
  | .Nats m => "NATS error: " ++ m
  | .ModelProvider m => "Model provider error: " ++ m
  | .Domain d m => "Domain error: " ++ d ++ " - " ++ m
  | .Dialog m => "Dialog error: " ++ m
  | .Identity m => "Identity error: " ++ m
  | .Graph m => "Graph error: " ++ m
  | .Workflow m => "Workflow error: " ++ m
  | .Serialization m => "Serialization error: " ++ m
  | .Network m => "Network error: " ++ m
  | .Timeout m => "Operation timed out: " ++ m
  | .NotFound m => "Resource not found: " ++ m
  | .PermissionDenied m => "Permission denied: " ++ m
  | .ServiceUnavailable m => "Service unavailable: " ++ m
  | .Internal m => "Internal error: " ++ m

/-- `crate::NAME` from `src/lib.rs`. -/
def crateNAME : String := "alchemist"

/-- Association-list lookup (embedding of `HashMap::get`). -/
def assocGet {α : Type} (m : List (String × α)) (k : String) : Option α :=
  match m with
  | [] => none
  | (k0, v0) :: rest => if k0 = k then some v0 else assocGet rest k

/-- Association-list insert-or-update (embedding of `HashMap::insert` /
the vacant arm of the `entry` API). -/
def assocPut {α : Type} (m : List (String × α)) (k : String) (v : α) :
    List (String × α) :=
  match m with
  | [] => [(k, v)]
  | (k0, v0) :: rest =>
      if k0 = k then (k, v) :: rest else (k0, v0) :: assocPut rest k v

/-! ## Wire types (`src/nats_integration.rs`) -/

/-- `AgentCommand`. -/
structure AgentCommand where
  id : String
  command_type : String
  payload : JsonValue
  timestamp : Nat
  origin : String

/-- `AgentQuery`. -/
structure AgentQuery where
  id : String
  query_type : String
  parameters : JsonValue
  timestamp : Nat
  origin : String

/-- `AgentEvent`. -/
structure AgentEvent where
  id : String
  event_type : String
  payload : JsonValue
  timestamp : Nat
  agent_id : String

/-- `DialogMessage`. -/
structure DialogMessage where
  dialog_id : String
  content : String
  sender : String
  metadata : JsonValue
  timestamp : Nat

/-- `HealthResponse`. -/
structure HealthResponse where
  status : String
  version : String
  uptime_seconds : Nat
  model_status : String
  active_dialogs : Nat
  metadata : JsonValue

/-! ## Dialog and workflow domain types, as constructed and read by
`src/agent.rs` (the struct definitions live in the external
`cim-domain-dialog` / `cim-domain-workflow` crates). -/

inductive DialogStatus where
  | Active
  | Closed
deriving DecidableEq

inductive TurnType where
  | User
  | Assistant
  | System
deriving DecidableEq

inductive MessageContent where
  | Text (s : String)
  | Structured (j : JsonValue)

/-- `cim_domain_dialog::Message`. -/
structure DialogTurnMessage where
  content : MessageContent
  intent : Option String
  metadata : JsonValue

/-- `cim_domain_dialog::Turn`. -/
structure Turn where
  id : String
  turn_type : TurnType
  message : DialogTurnMessage
  timestamp : Nat

/-- `cim_domain_dialog::Dialog`. -/
structure Dialog where
  id : String
  status : DialogStatus
  participants : List String
  turns : List Turn
  context : JsonValue
  metadata : JsonValue

inductive WorkflowStatus where
  | Active
  | Completed
  | Failed
deriving DecidableEq

/-- `cim_domain_workflow::Workflow`; the node container is the ordered
step-key-to-step-definition mapping described by the specification, which is
also the order the templates in `agent.rs` build their node lists in. -/
structure Workflow where
  id : String
  name : String
  status : WorkflowStatus
  current_node : Option String
  nodes : List (String × JsonValue)
  edges : List ((String × String) × JsonValue)
  metadata : JsonValue

/-- `Workflow::progress_percentage` from `src/agent.rs` (lines 760-771),
with `f32` arithmetic embedded over `Rat`.  `keys().position(|k| k == current)`
is `findIdx?` over the ordered keys and `unwrap_or(0)` is `getD 0`.  The one
case where `Rat` and `f32` differ is `current_node` set with an empty node
map (`0/0`, NaN in `f32`, `0` here); no workflow the code stores is in that
case, and no theorem below relies on it. -/
def Workflow.progress_percentage (w : Workflow) : Rat :=
  match w.current_node with
  | some current =>
      let total_nodes : Nat := w.nodes.length
      let current_index : Nat :=
        ((w.nodes.map Prod.fst).findIdx? (fun k => k = current)).getD 0
      ((current_index : Rat) / (total_nodes : Rat)) * 100
  | none => 0

/-! ## Agent state -/

/-- The two mutable maps owned by `AlchemistAgent` (`dialogs`, `workflows`). -/
structure AgentState where
  dialogs : List (String × Dialog)
  workflows : List (String × Workflow)

/-! ## Model provider types (`src/model.rs`, as used by `src/agent.rs`) -/

/-- `model::Message`. -/
structure ModelMessage where
  role : String
  content : String
  timestamp : Nat
deriving DecidableEq

/-- `model::GenerationParameters` (floats over `Rat`). -/
structure GenerationParameters where
  temperature : Rat
  max_tokens : Nat
  top_p : Option Rat
  top_k : Option Nat
  stop_sequences : List String
  frequency_penalty : Option Rat
  presence_penalty : Option Rat

/-- `GenerationParameters::default()`. -/
def GenerationParameters.default : GenerationParameters :=
  { temperature := 7/10
    max_tokens := 2048
    top_p := some (9/10)
    top_k := none
    stop_sequences := []
    frequency_penalty := none
    presence_penalty := none }

/-- `model::TokenUsage`. -/
structure TokenUsage where
  prompt_tokens : Nat
  completion_tokens : Nat
  total_tokens : Nat

/-- `model::ModelRequest`. -/
structure ModelRequest where
  prompt : String
  history : List ModelMessage
  system_prompt : Option String
  parameters : GenerationParameters
  metadata : JsonValue

/-- `model::ModelResponse` (the fields `agent.rs` reads; `duration` embedded
as `Nat` milliseconds). -/
structure ModelResponse where
  content : String
  usage : TokenUsage
  metadata : JsonValue
  duration : Nat

/-- `TokenUsage` serialized to JSON (used in the assistant-turn metadata). -/
def TokenUsage.toJson (u : TokenUsage) : JsonValue :=
  .obj [("prompt_tokens", .num u.prompt_tokens),
        ("completion_tokens", .num u.completion_tokens),
        ("total_tokens", .num u.total_tokens)]

/-! ## NATS subjects and the router loop bodies (`src/nats_integration.rs`) -/

/-- `subjects::EVENTS`. -/
def subjectsEVENTS : String := "cim.agent.alchemist.events.>"

/-- `subjects::HEALTH`. -/
def subjectsHEALTH : String := "cim.agent.alchemist.health"

/-- `str::trim_end_matches('>')`: remove every trailing `>` character. -/
def trimTrailingGt (s : String) : String :=
  ⟨(s.data.reverse.dropWhile (fun c => c = '>')).reverse⟩

/-- Subject a `<commandType>_completed` event is published on:
`format!("{}.{}", subjects::EVENTS.trim_end_matches('>'), command.command_type)`. -/
def eventsSubjectFor (commandType : String) : String :=
  trimTrailingGt subjectsEVENTS ++ "." ++ commandType

/-- Subject a `<commandType>_failed` event is published on:
`format!("{}.error", subjects::EVENTS.trim_end_matches('>'))`. -/
def eventsErrorSubject : String :=
  trimTrailingGt subjectsEVENTS ++ ".error"

/-- Body of the command loop of `process_command_stream` for one inbound
message.  The serde decode outcome is the `Except String AgentCommand`
argument (`Ok` on decode success, the parse error text otherwise); the result
is the list of `(subject, event)` pairs the loop publishes for this message.
`uuid` supplies `Uuid::new_v4`, `now` the `Utc::now()` event timestamp. -/
def processCommandMessage (handler : AgentCommand → Except AgentError JsonValue)
    (uuid : String) (now : Nat) (decoded : Except String AgentCommand) :
    List (String × AgentEvent) :=
  match decoded with
  | .error _ => []
  | .ok command =>
      match handler command with
      | .ok response =>
          [(eventsSubjectFor command.command_type,
            { id := uuid
              event_type := command.command_type ++ "_completed"
              payload := response
              timestamp := now
              agent_id := crateNAME })]
      | .error e =>
          [(eventsErrorSubject,
            { id := uuid
              event_type := command.command_type ++ "_failed"
              payload := .obj [("error", .str e.toDisplay),
                               ("command_id", .str command.id)]
              timestamp := now
              agent_id := crateNAME })]

/-- Body of the query loop of `process_query_stream` for one inbound message:
`reply` is the message reply address (`msg.reply`), `decoded` the serde
decode outcome; the result is the list of response payloads sent to the reply
address. -/
def processQueryMessage (handler : AgentQuery → Except AgentError JsonValue)
    (reply : Option String) (decoded : Except String AgentQuery) :
    List JsonValue :=
  match reply with
  | none => []
  | some _ =>
      match decoded with
      | .ok query =>
          match handler query with
          | .ok result =>
              [JsonValue.obj [("success", .bool true), ("result", result)]]
          | .error e =>
              [JsonValue.obj [("success", .bool false),
                              ("error", .str e.toDisplay)]]
      | .error e =>
          [JsonValue.obj [("success", .bool false),
                          ("error", .str ("Invalid query format: " ++ e))]]

/-! ## Service supervisor and health responder
(`src/service.rs`, `handle_health_checks` in `src/nats_integration.rs`) -/

/-- `ServiceStatus`. -/
inductive ServiceStatus where
  | Starting
  | Running
  | Stopping
  | Stopped
  | Error (reason : String)
deriving DecidableEq

/-- The four processing loops spawned by `AgentService::start`. -/
inductive LoopKind where
  | command
  | query
  | dialog
  | health
deriving DecidableEq

/-- Supervisor-visible state of `AgentService`: the status cell and the
spawned loop tasks. -/
structure ServiceState where
  status : ServiceStatus
  tasks : List LoopKind

/-- `AgentService::new`: status `Starting`, no tasks spawned (in particular
no health subscription exists yet). -/
def agentServiceNew : ServiceState :=
  { status := .Starting, tasks := [] }

/-- `AgentService::start`: set status `Running` and spawn the command, query,
dialog and health loops. -/
def agentServiceStart (s : ServiceState) : ServiceState :=
  { s with
    status := .Running
    tasks := s.tasks ++ [.command, .query, .dialog, .health] }

/-- `AgentService::stop`: status `Stopping`, close subscriptions and abort all
tasks, then status `Stopped`. -/
def agentServiceStop (s : ServiceState) : ServiceState :=
  { s with status := .Stopped, tasks := [] }

/-- The `status_fn` closure built in `AgentService::start_health_handler`
(`src/service.rs` lines 258-277): every field except `uptime_seconds` is a
constant — `status` is the literal `"Running"`, `model_status` the literal
`"healthy"` and `active_dialogs` the literal `0`, independent of the actual
service status and dialog map. -/
def healthStatusFn (version : String) : HealthResponse :=
  { status := "Running"
    version := version
    uptime_seconds := 0
    model_status := "healthy"
    active_dialogs := 0
    metadata := .obj
      [("agent_name", .str crateNAME),
       ("capabilities", .obj
         [("explain_concepts", .bool true),
          ("visualize_architecture", .bool true),
          ("guide_workflows", .bool true),
          ("analyze_patterns", .bool true),
          ("suggest_improvements", .bool true)])] }

/-- Reply produced for one inbound message on the health subject: the health
loop replies only when it has been spawned (the subscription exists) and the
message carries a reply address; `handle_health_checks` then overwrites
`uptime_seconds` with the elapsed time since service creation. -/
def healthReply (svc : ServiceState) (version : String) (elapsed : Nat)
    (reply : Option String) : Option HealthResponse :=
  if svc.tasks.contains .health then
    match reply with
    | some _ => some { healthStatusFn version with uptime_seconds := elapsed }
    | none => none
  else
    none

/-! ## Connection retry configuration (`src/config.rs`, `NatsClient::new`) -/

/-- `RetryConfig` (durations in milliseconds, the `f64` multiplier over
`Rat`). -/
structure RetryConfig where
  max_attempts : Nat
  initial_delay_ms : Nat
  max_delay_ms : Nat
  multiplier : Rat
deriving DecidableEq

/-- Everything `NatsClient::new` (`src/nats_integration.rs` lines 52-112)
passes to the transport library about retries: it calls
`max_reconnects(config.retry.max_attempts as usize)` and
`retry_on_initial_connect()` on the connect options and nothing else — the
`initial_delay`, `max_delay` and `multiplier` fields of `RetryConfig` are
never read. -/
structure ConnectRetrySetup where
  maxReconnects : Nat
  retryOnInitialConnect : Bool
deriving DecidableEq

/-- The retry-relevant connect options built by `NatsClient::new` as a
function of the retry configuration. -/
def natsConnectRetrySetup (r : RetryConfig) : ConnectRetrySetup :=
  { maxReconnects := r.max_attempts, retryOnInitialConnect := true }

/-- Modelled from the spec: the inter-attempt delay schedule
`delay = min(initialDelay * multiplier^attempt, maxDelay)` that section 4.1
and Scenario D of the specification claim the initial-connect loop performs.
No such schedule exists in the source (`NatsClient::new` delegates retrying
to the library and never reads the delay fields); this definition exists to
be compared against `natsConnectRetrySetup`. -/
def specRetryDelayMs (r : RetryConfig) (attempt : Nat) : Rat :=
  min ((r.initial_delay_ms : Rat) * r.multiplier ^ attempt)
      (r.max_delay_ms : Rat)

/-- The Scenario D retry policy, which is also `RetryConfig` inside
`AgentConfig::default()` in `src/config.rs`. -/
def retryPolicyD : RetryConfig :=
  { max_attempts := 5
    initial_delay_ms := 100
    max_delay_ms := 30000
    multiplier := 2 }

/-! ## Agent operations (`src/agent.rs`) -/

/-- Character-level escaping for the JSON serializer below (quote and
backslash; sufficient for every string the claims touch). -/
def jsonEscapeChar (c : Char) : String :=
  if c = '"' then "\\\"" else if c = '\\' then "\\\\" else String.singleton c

/-- String body escaping for the JSON serializer. -/
def jsonEscape (s : String) : String :=
  String.join (s.data.map jsonEscapeChar)

mutual

/-- `serde_json::Value::to_string()` (compact rendering; used by the turn
history builder on `MessageContent::Structured`, which no stored turn of the
claims ever is). -/
def JsonValue.render : JsonValue → String
  | .null => "null"
  | .bool true => "true"
  | .bool false => "false"
  | .num n => toString n
  | .str s => "\"" ++ jsonEscape s ++ "\""
  | .arr xs => "[" ++ JsonValue.renderList xs ++ "]"
  | .obj fs => "\x7b" ++ JsonValue.renderFields fs ++ "\x7d"

/-- Comma-separated rendering of array elements. -/
def JsonValue.renderList : List JsonValue → String
  | [] => ""
  | [x] => x.render
  | x :: rest => x.render ++ "," ++ JsonValue.renderList rest

/-- Comma-separated rendering of object fields. -/
def JsonValue.renderFields : List (String × JsonValue) → String
  | [] => ""
  | [(k, v)] => "\"" ++ jsonEscape k ++ "\":" ++ v.render
  | (k, v) :: rest =>
      "\"" ++ jsonEscape k ++ "\":" ++ v.render ++ "," ++
        JsonValue.renderFields rest

end

/-- `AlchemistAgent::get_system_prompt` — the `format!` literal with its
line-continuation backslashes resolved (each `\<newline><indent>` pair is
deleted, so segments whose lines end without a trailing space concatenate
without separation). -/
def getSystemPrompt : String :=
  "You are the Alchemist, an AI assistant specialized in helping users understand and work with the Composable Information Machine (CIM) architecture. Your expertise includes:- Event-driven architecture with event sourcing and CQRS- Domain-Driven Design principles and patterns- Entity Component Systems (ECS) using Bevy- Graph-based workflows and visual programming- Conceptual spaces for semantic understanding- NATS messaging and distributed systems- Rust programming best practicesYou should:- Provide clear, accurate explanations of CIM concepts- Use examples from the actual CIM codebase when relevant- Guide users through implementation patterns- Suggest best practices and improvements- Help debug and solve architecture challengesAlways be helpful, precise, and educational in your responses."

/-- The `Dialog` value `or_insert_with` builds for an unknown `dialogId` in
`process_dialog_message`. -/
def newEmptyDialog (id : String) : Dialog :=
  { id := id
    status := .Active
    participants := []
    turns := []
    context := .emptyObj
    metadata := .emptyObj }

/-- One turn mapped to a provider message (the closure inside
`process_dialog_message` building the conversation history). -/
def Turn.toModelMessage (t : Turn) : ModelMessage :=
  { role :=
      match t.turn_type with
      | .User => "user"
      | .Assistant => "assistant"
      | .System => "system"
    content :=
      match t.message.content with
      | .Text text => text
      | .Structured json => json.render
    timestamp := t.timestamp }

/-- The `User` turn appended from an inbound dialog message. -/
def userTurnOf (id : String) (msg : DialogMessage) : Turn :=
  { id := id
    turn_type := .User
    message :=
      { content := .Text msg.content, intent := none, metadata := msg.metadata }
    timestamp := msg.timestamp }

/-- The dialog looked up (or lazily created, `uuid 0`) for the message, with
the new `User` turn (`uuid 1`) already appended — the state of the map entry
at the moment the history for the model is built. -/
def dialogAfterUserTurn (st : AgentState) (uuid : Nat → String)
    (msg : DialogMessage) : Dialog :=
  let dialog0 := (assocGet st.dialogs msg.dialog_id).getD (newEmptyDialog (uuid 0))
  { dialog0 with turns := dialog0.turns ++ [userTurnOf (uuid 1) msg] }

/-- The `ModelRequest` handed to the external generator inside
`process_dialog_message`: prompt is the raw message content, history is the
full turn list after the `User` turn was appended. -/
def modelRequestFor (agentId : String) (st : AgentState) (uuid : Nat → String)
    (msg : DialogMessage) : ModelRequest :=
  { prompt := msg.content
    history := (dialogAfterUserTurn st uuid msg).turns.map Turn.toModelMessage
    system_prompt := some getSystemPrompt
    parameters := GenerationParameters.default
    metadata := .obj [("dialog_id", .str msg.dialog_id),
                      ("agent_id", .str agentId)] }

/-- `AlchemistAgent::process_dialog_message` (`src/agent.rs` lines 142-216).
In the source the map entry is mutated in place, so on the error path of the
generator call the map already holds the dialog with the `User` turn; the
embedding returns the same end states.  `uuid 2` is the assistant turn id and
`now` the `Utc::now()` timestamp it carries. -/
def process_dialog_message (agentId : String) (uuid : Nat → String)
    (provider : ModelRequest → Except AgentError ModelResponse)
    (now : Nat) (st : AgentState) (msg : DialogMessage) :
    Except AgentError String × AgentState :=
  let dialog1 := dialogAfterUserTurn st uuid msg
  match provider (modelRequestFor agentId st uuid msg) with
  | .error e =>
      (.error e, { st with dialogs := assocPut st.dialogs msg.dialog_id dialog1 })
  | .ok response =>
      let assistantTurn : Turn :=
        { id := uuid 2
          turn_type := .Assistant
          message :=
            { content := .Text response.content
              intent := none
              metadata := .obj [("model_metadata", response.metadata),
                                ("usage", response.usage.toJson)] }
          timestamp := now }
      let dialog2 := { dialog1 with turns := dialog1.turns ++ [assistantTurn] }
      (.ok response.content,
       { st with dialogs := assocPut st.dialogs msg.dialog_id dialog2 })

/-- `AlchemistAgent::start_dialog` (`src/agent.rs` lines 219-249); `uuid 0`
is the generated `dialog_id`, `uuid 1` the inner `Dialog.id`. -/
def start_dialog (agentId agentName : String) (uuid : Nat → String)
    (st : AgentState) (payload : JsonValue) :
    Except AgentError JsonValue × AgentState :=
  let dialog_id := uuid 0
  let dialog : Dialog :=
    { id := uuid 1
      status := .Active
      participants := [agentId, ((payload.get "user_id").asStr).getD "anonymous"]
      turns := []
      context := payload.get "context"
      metadata := payload.get "metadata" }
  (.ok (.obj
      [("dialog_id", .str dialog_id),
       ("status", .str "active"),
       ("agent", .obj
         [("id", .str agentId),
          ("name", .str agentName),
          ("capabilities", .obj
            [("explain_concepts", .bool true),
             ("visualize_architecture", .bool true),
             ("guide_workflows", .bool true)])])]),
   { st with dialogs := assocPut st.dialogs dialog_id dialog })

/-- `AlchemistAgent::find_related_concepts`. -/
def find_related_concepts (concept : String) : Except AgentError (List String) :=
  .ok (match concept with
    | "Event Sourcing" => ["CQRS", "Event Store", "Domain Events"]
    | "Domain-Driven Design" =>
        ["Bounded Context", "Aggregate", "Ubiquitous Language"]
    | _ => [])

/-- `AlchemistAgent::find_concept_examples`. -/
def find_concept_examples (concept : String) : Except AgentError (List String) :=
  .ok (match concept with
    | "Event Sourcing" =>
        ["GraphEvent::NodeAdded in cim-domain-graph",
         "PersonEvent::ContactAdded in cim-domain-person"]
    | _ => [])

/-- `AlchemistAgent::explain_concept` (reads only shared state). -/
def explain_concept (provider : ModelRequest → Except AgentError ModelResponse)
    (payload : JsonValue) : Except AgentError JsonValue := do
  let some concept := (payload.get "concept").asStr
    | throw (.Configuration "Missing concept parameter")
  let prompt :=
    "Explain the CIM concept \x27" ++ concept ++
      "\x27 in detail, including its purpose, how it fits into the overall architecture, and provide examples."
  let response ← provider
    { prompt := prompt
      history := []
      system_prompt := some getSystemPrompt
      parameters := GenerationParameters.default
      metadata := .obj [("concept", .str concept)] }
  let related ← find_related_concepts concept
  let examples ← find_concept_examples concept
  return .obj
    [("concept", .str concept),
     ("explanation", .str response.content),
     ("related_concepts", .arr (related.map .str)),
     ("examples", .arr (examples.map .str))]

/-- `AlchemistAgent::generate_overview_visualization` (ignores the graph). -/
def generate_overview_visualization : Except AgentError JsonValue :=
  .ok (.obj
    [("nodes", .arr
       [.obj [("id", .str "domains"), ("label", .str "CIM Domains"),
              ("type", .str "category")],
        .obj [("id", .str "infrastructure"), ("label", .str "Infrastructure"),
              ("type", .str "category")],
        .obj [("id", .str "bridge"), ("label", .str "Bridge Layer"),
              ("type", .str "category")]]),
     ("edges", .arr
       [.obj [("source", .str "domains"), ("target", .str "infrastructure"),
              ("label", .str "uses")],
        .obj [("source", .str "bridge"), ("target", .str "domains"),
              ("label", .str "connects")]])])

/-- `AlchemistAgent::generate_domain_visualization`. -/
def generate_domain_visualization : Except AgentError JsonValue :=
  .ok (.obj
    [("nodes", .arr
       [.obj [("id", .str "agent"), ("label", .str "Agent Domain"),
              ("type", .str "domain")],
        .obj [("id", .str "dialog"), ("label", .str "Dialog Domain"),
              ("type", .str "domain")],
        .obj [("id", .str "graph"), ("label", .str "Graph Domain"),
              ("type", .str "domain")],
        .obj [("id", .str "workflow"), ("label", .str "Workflow Domain"),
              ("type", .str "domain")]]),
     ("edges", .arr
       [.obj [("source", .str "agent"), ("target", .str "dialog"),
              ("label", .str "manages")],
        .obj [("source", .str "workflow"), ("target", .str "graph"),
              ("label", .str "visualizes")]])])

/-- `AlchemistAgent::generate_event_flow_visualization`. -/
def generate_event_flow_visualization : Except AgentError JsonValue :=
  .ok (.obj
    [("nodes", .arr
       [.obj [("id", .str "command"), ("label", .str "Command"),
              ("type", .str "input")],
        .obj [("id", .str "handler"), ("label", .str "Command Handler"),
              ("type", .str "processor")],
        .obj [("id", .str "aggregate"), ("label", .str "Aggregate"),
              ("type", .str "domain")],
        .obj [("id", .str "event"), ("label", .str "Domain Event"),
              ("type", .str "output")]]),
     ("edges", .arr
       [.obj [("source", .str "command"), ("target", .str "handler"),
              ("label", .str "processes")],
        .obj [("source", .str "handler"), ("target", .str "aggregate"),
              ("label", .str "updates")],
        .obj [("source", .str "aggregate"), ("target", .str "event"),
              ("label", .str "emits")]])])

/-- `AlchemistAgent::generate_custom_visualization`. -/
def generate_custom_visualization (scope : String) :
    Except AgentError JsonValue :=
  .ok (.obj
    [("error", .str ("Custom visualization for \x27" ++ scope ++
       "\x27 not yet implemented"))])

/-- `AlchemistAgent::generate_visualization_description`. -/
def generate_visualization_description
    (provider : ModelRequest → Except AgentError ModelResponse)
    (scope : String) : Except AgentError String := do
  let response ← provider
    { prompt := "Describe the " ++ scope ++
        " visualization of CIM architecture, explaining what it shows and how to interpret it."
      history := []
      system_prompt := some getSystemPrompt
      parameters := GenerationParameters.default
      metadata := .obj [("scope", .str scope)] }
  return response.content

/-- `AlchemistAgent::visualize_architecture` (reads only shared state). -/
def visualize_architecture
    (provider : ModelRequest → Except AgentError ModelResponse)
    (payload : JsonValue) : Except AgentError JsonValue := do
  let scope := ((payload.get "scope").asStr).getD "overview"
  let visualization ←
    match scope with
    | "overview" => generate_overview_visualization
    | "domains" => generate_domain_visualization
    | "events" => generate_event_flow_visualization
    | _ => generate_custom_visualization scope
  let description ← generate_visualization_description provider scope
  return .obj
    [("scope", .str scope),
     ("visualization", visualization),
     ("description", .str description)]

/-- `AlchemistAgent::create_agent_workflow` (`uuid` is the generated
`Workflow.id`). -/
def create_agent_workflow (uuid : String) : Workflow :=
  { id := uuid
    name := "Create CIM Agent"
    status := .Active
    current_node := some "setup"
    nodes :=
      [("setup", .obj [("step", .str "Setup project structure")]),
       ("domains", .obj [("step", .str "Select domains to compose")]),
       ("model", .obj [("step", .str "Configure AI model")]),
       ("nats", .obj [("step", .str "Setup NATS integration")]),
       ("test", .obj [("step", .str "Write tests")]),
       ("deploy", .obj [("step", .str "Deploy agent")])]
    edges :=
      [(("setup", "domains"), .obj [("label", .str "next")]),
       (("domains", "model"), .obj [("label", .str "next")]),
       (("model", "nats"), .obj [("label", .str "next")]),
       (("nats", "test"), .obj [("label", .str "next")]),
       (("test", "deploy"), .obj [("label", .str "next")])]
    metadata := .obj
      [("description", .str "Workflow for creating a new CIM agent")] }

/-- `AlchemistAgent::create_domain_workflow`. -/
def create_domain_workflow (uuid : String) : Workflow :=
  { id := uuid
    name := "Implement CIM Domain"
    status := .Active
    current_node := some "design"
    nodes :=
      [("design", .obj [("step", .str "Design domain model")]),
       ("events", .obj [("step", .str "Define domain events")]),
       ("commands", .obj [("step", .str "Define commands")]),
       ("aggregate", .obj [("step", .str "Implement aggregate")]),
       ("handlers", .obj [("step", .str "Implement handlers")]),
       ("tests", .obj [("step", .str "Write tests")])]
    edges :=
      [(("design", "events"), .obj [("label", .str "next")]),
       (("events", "commands"), .obj [("label", .str "next")]),
       (("commands", "aggregate"), .obj [("label", .str "next")]),
       (("aggregate", "handlers"), .obj [("label", .str "next")]),
       (("handlers", "tests"), .obj [("label", .str "next")])]
    metadata := .obj
      [("description", .str "Workflow for implementing a new CIM domain")] }

/-- `AlchemistAgent::create_event_workflow`. -/
def create_event_workflow (uuid : String) : Workflow :=
  { id := uuid
    name := "Add Domain Event"
    status := .Active
    current_node := some "define"
    nodes :=
      [("define", .obj [("step", .str "Define event structure")]),
       ("handler", .obj [("step", .str "Update event handler")]),
       ("aggregate", .obj [("step", .str "Update aggregate")]),
       ("test", .obj [("step", .str "Write event tests")])]
    edges :=
      [(("define", "handler"), .obj [("label", .str "next")]),
       (("handler", "aggregate"), .obj [("label", .str "next")]),
       (("aggregate", "test"), .obj [("label", .str "next")])]
    metadata := .obj
      [("description", .str "Workflow for adding a new domain event")] }

/-- `AlchemistAgent::get_workflow_first_step` (infallible in the source, its
`Result` is always `Ok`). -/
def get_workflow_first_step (workflow_type : String) : JsonValue :=
  match workflow_type with
  | "create_agent" => .obj
      [("step", .str "setup"),
       ("title", .str "Setup Project Structure"),
       ("description", .str "Create the directory structure for your new agent"),
       ("instructions", .arr
         [.str "Create cim-agent-\x7bname\x7d directory",
          .str "Initialize Cargo.toml with dependencies",
          .str "Create src/lib.rs with module structure"])]
  | "implement_domain" => .obj
      [("step", .str "design"),
       ("title", .str "Design Domain Model"),
       ("description", .str "Define the core concepts and boundaries of your domain"),
       ("instructions", .arr
         [.str "Identify domain entities and value objects",
          .str "Define aggregate boundaries",
          .str "Document ubiquitous language"])]
  | "add_event" => .obj
      [("step", .str "define"),
       ("title", .str "Define Event Structure"),
       ("description", .str "Create the event type and its payload"),
       ("instructions", .arr
         [.str "Choose descriptive past-tense event name",
          .str "Define event fields and types",
          .str "Add to events.rs module"])]
  | _ => .obj [("error", .str "Unknown workflow type")]

/-- `AlchemistAgent::guide_workflow` (`src/agent.rs` lines 310-333); `uuid 0`
is the generated `workflow_id`, `uuid 1` the id inside the chosen template. -/
def guide_workflow (uuid : Nat → String) (st : AgentState)
    (payload : JsonValue) : Except AgentError JsonValue × AgentState :=
  match (payload.get "workflow_type").asStr with
  | none => (.error (.Configuration "Missing workflow_type parameter"), st)
  | some workflow_type =>
      let workflow_id := uuid 0
      let chosen : Except AgentError Workflow :=
        match workflow_type with
        | "create_agent" => .ok (create_agent_workflow (uuid 1))
        | "implement_domain" => .ok (create_domain_workflow (uuid 1))
        | "add_event" => .ok (create_event_workflow (uuid 1))
        | _ => .error (.NotFound ("Unknown workflow type: " ++ workflow_type))
      match chosen with
      | .error e => (.error e, st)
      | .ok workflow =>
          (.ok (.obj
             [("workflow_id", .str workflow_id),
              ("workflow_type", .str workflow_type),
              ("status", .str "started"),
              ("first_step", get_workflow_first_step workflow_type)]),
           { st with workflows := assocPut st.workflows workflow_id workflow })

/-- `str::trim_start_matches` for a two-character pattern: repeatedly remove
the leading occurrence of `a` followed by `b`. -/
def trimStartMatches2 (a b : Char) : List Char → List Char
  | c1 :: c2 :: rest =>
      if c1 = a ∧ c2 = b then trimStartMatches2 a b rest else c1 :: c2 :: rest
  | l => l

/-- `line.trim_start_matches("- ").trim_start_matches("* ")` from
`generate_pattern_recommendations`. -/
def stripLeadingListMarker (s : String) : String :=
  ⟨trimStartMatches2 '*' ' ' (trimStartMatches2 '-' ' ' s.data)⟩

/-- `str::lines` (split on newline, no trailing empty line; `\r` handling is
not needed by any claim). -/
def rustLines (s : String) : List String :=
  let parts := s.splitOn "\n"
  if parts.getLast? = some "" then parts.dropLast else parts

/-- `AlchemistAgent::generate_pattern_recommendations`; `now` is the
`Utc::now()` timestamp of the single history message. -/
def generate_pattern_recommendations
    (provider : ModelRequest → Except AgentError ModelResponse)
    (now : Nat) (pattern_type code : String) :
    Except AgentError (List String) := do
  let response ← provider
    { prompt := "Based on the " ++ pattern_type ++
        " pattern analysis, provide specific recommendations for improving this code to better align with CIM architecture principles."
      history := [{ role := "user", content := code, timestamp := now }]
      system_prompt := some getSystemPrompt
      parameters := GenerationParameters.default
      metadata := .obj [("pattern_type", .str pattern_type)] }
  return ((rustLines response.content).filter
      (fun line => line.startsWith "- " || line.startsWith "* ")).map
    stripLeadingListMarker

/-- `AlchemistAgent::analyze_pattern` (reads only shared state). -/
def analyze_pattern
    (provider : ModelRequest → Except AgentError ModelResponse)
    (now : Nat) (payload : JsonValue) : Except AgentError JsonValue := do
  let pattern_type := ((payload.get "pattern_type").asStr).getD "general"
  let code := ((payload.get "code").asStr).getD ""
  let response ← provider
    { prompt := "Analyze this " ++ pattern_type ++
        " pattern in the context of CIM architecture:\n\n" ++ code ++
        "\n\nIdentify strengths, potential issues, and suggest improvements."
      history := []
      system_prompt := some getSystemPrompt
      parameters := GenerationParameters.default
      metadata := .obj [("pattern_type", .str pattern_type)] }
  let recommendations ← generate_pattern_recommendations provider now
    pattern_type code
  return .obj
    [("pattern_type", .str pattern_type),
     ("analysis", .str response.content),
     ("recommendations", .arr (recommendations.map .str))]

/-- `AlchemistAgent::process_command` (`src/agent.rs` lines 113-125): string
dispatch on `command_type`; unknown tags return `AgentError::NotFound`
without touching any state. -/
def process_command (agentId agentName : String) (uuid : Nat → String)
    (provider : ModelRequest → Except AgentError ModelResponse) (now : Nat)
    (st : AgentState) (command : AgentCommand) :
    Except AgentError JsonValue × AgentState :=
  match command.command_type with
  | "start_dialog" => start_dialog agentId agentName uuid st command.payload
  | "explain_concept" => (explain_concept provider command.payload, st)
  | "visualize_architecture" =>
      (visualize_architecture provider command.payload, st)
  | "guide_workflow" => guide_workflow uuid st command.payload
  | "analyze_pattern" => (analyze_pattern provider now command.payload, st)
  | _ =>
      (.error (.NotFound ("Unknown command type: " ++ command.command_type)),
       st)

/-! # Theorems -/

/-- Inserting under a key and looking the key up yields the inserted value
(shared helper about the map embedding). -/
theorem assocGet_assocPut {α : Type} (m : List (String × α)) (k : String) (v : α) :
    assocGet (assocPut m k v) k = some v := by
  induction m with
  | nil => simp [assocPut, assocGet]
  | cons hd tl ih =>
      obtain ⟨k0, v0⟩ := hd
      by_cases h : k0 = k
      · simp [assocPut, assocGet, h]
      · simp [assocPut, assocGet, h, ih]

/-- C1 counterexample: the `create_agent` workflow template stored by the
tracker has `currentNode = "setup"`, the 1st (1-indexed) of its 6 ordered
node keys, so the claim predicts `100 * (1/6)`; `progress_percentage`
actually divides the 0-based position by the node count and returns `0`. -/
theorem claimC1_counterexample :
    (create_agent_workflow "w").current_node = some "setup" ∧
    ((create_agent_workflow "w").nodes.map Prod.fst).findIdx?
        (fun k => k = "setup") = some 0 ∧
    (create_agent_workflow "w").nodes.length = 6 ∧
    (create_agent_workflow "w").progress_percentage = 0 ∧
    (create_agent_workflow "w").progress_percentage ≠ 100 * ((1 : Rat) / 6) := by
  refine ⟨rfl, ?_, rfl, ?_, ?_⟩
  · simp [create_agent_workflow, List.findIdx?]
  · simp [Workflow.progress_percentage, create_agent_workflow, List.findIdx?]
  · simp [Workflow.progress_percentage, create_agent_workflow, List.findIdx?]

/-- C1 (amended): `progress_percentage` returns 0 when `currentNode` is
absent, or when the node map is nonempty and `currentNode` is not one of its
keys; when `currentNode` is the k-th (1-indexed) of the n ordered node keys
it returns `100 * ((k-1)/n)` — the 0-based position over the count — not
`100 * (k/n)`.  (Stated in exact arithmetic; the `f32` division the source
performs is exact at every value any stored workflow produces for the 0 and
k = 1 cases, and the remaining case of the original claim, `currentNode` set
over an empty node map, would be `0/0`, NaN, in the source and never arises
for a stored workflow.)  It never returns an error: it is a total function. -/
theorem claimC1_progress_amended (w : Workflow) :
    (w.current_node = none → w.progress_percentage = 0) ∧
    (∀ c, w.current_node = some c → w.nodes ≠ [] →
      (w.nodes.map Prod.fst).findIdx? (fun k => k = c) = none →
      w.progress_percentage = 0) ∧
    (∀ c i, w.current_node = some c →
      (w.nodes.map Prod.fst).findIdx? (fun k => k = c) = some i →
      w.progress_percentage = ((i : Rat) / (w.nodes.length : Rat)) * 100) := by
  refine ⟨fun h => by simp [Workflow.progress_percentage, h], ?_, ?_⟩
  · intro c hc _ hfind
    simp [Workflow.progress_percentage, hc, hfind]
  · intro c i hc hfind
    simp [Workflow.progress_percentage, hc, hfind]

/-- C1 witness: the amended statement evaluated on the stored `create_agent`
template — `currentNode` is the 1st of 6 ordered keys and the progress is
`100 * (0/6) = 0`. -/
theorem claimC1_progress_witness :
    (create_agent_workflow "w").progress_percentage =
      ((0 : Rat) / ((create_agent_workflow "w").nodes.length : Rat)) * 100 := by
  have h := (claimC1_progress_amended (create_agent_workflow "w")).2.2 "setup" 0
    rfl (by simp [create_agent_workflow, List.findIdx?])
  simpa using h

/-- C2 counterexample: for the decoded command `start_dialog` the completed
event is published on subject `cim.agent.alchemist.events..start_dialog` —
the code keeps the trailing dot of the trimmed events wildcard and then
inserts another dot, leaving an empty subject token — which differs from the
`events.<commandType>` subject the claim states. -/
theorem claimC2_counterexample :
    (processCommandMessage (fun _ => .ok .null) "e1" 0
        (.ok { id := "c1", command_type := "start_dialog", payload := .null,
               timestamp := 0, origin := "test" })).map Prod.fst =
      ["cim.agent.alchemist.events..start_dialog"] ∧
    "cim.agent.alchemist.events..start_dialog" ≠
      "cim.agent.alchemist.events.start_dialog" := by
  exact ⟨by decide, by decide⟩

/-- C2 (amended): for every inbound command message that decodes as a valid
command `c`, the command loop publishes exactly one event — event type
`<commandType>_completed` with the handler result on subject
`events..<commandType>` when the handler succeeds, or
`<commandType>_failed` with payload `{error, command_id}` on subject
`events..error` when the handler fails (both subjects carry the empty token
left by trimming only the `>` of the wildcard) — never both and never zero;
a message that does not decode produces no event. -/
theorem claimC2_one_event_per_command
    (handler : AgentCommand → Except AgentError JsonValue)
    (eid : String) (now : Nat) (c : AgentCommand) :
    (processCommandMessage handler eid now (.ok c)).length = 1 ∧
    (∀ r, handler c = .ok r →
      processCommandMessage handler eid now (.ok c) =
        [(eventsSubjectFor c.command_type,
          { id := eid, event_type := c.command_type ++ "_completed",
            payload := r, timestamp := now, agent_id := crateNAME })]) ∧
    (∀ e, handler c = .error e →
      processCommandMessage handler eid now (.ok c) =
        [(eventsErrorSubject,
          { id := eid, event_type := c.command_type ++ "_failed",
            payload := .obj [("error", .str e.toDisplay),
                             ("command_id", .str c.id)],
            timestamp := now, agent_id := crateNAME })]) ∧
    (∀ perr, processCommandMessage handler eid now (.error perr) = []) ∧
    eventsSubjectFor c.command_type =
      "cim.agent.alchemist.events.." ++ c.command_type ∧
    eventsErrorSubject = "cim.agent.alchemist.events..error" := by
  refine ⟨?_, ?_, ?_, fun _ => rfl, ?_, by decide⟩
  · cases h : handler c <;> simp [processCommandMessage, h]
  · intro r h
    simp [processCommandMessage, h]
  · intro e h
    simp [processCommandMessage, h]
  · show trimTrailingGt subjectsEVENTS ++ "." ++ c.command_type = _
    have h : trimTrailingGt subjectsEVENTS ++ "." =
        "cim.agent.alchemist.events.." := by decide
    rw [h]

/-- C2 witness: the amended statement evaluated on a concrete decoded
command with a failing handler — exactly the one `ping_failed` event on the
double-dotted error subject. -/
theorem claimC2_one_event_witness :
    processCommandMessage (fun _ => .error (.NotFound "no handler")) "e1" 4
        (.ok { id := "c9", command_type := "ping", payload := .null,
               timestamp := 2, origin := "test" }) =
      [(eventsErrorSubject,
        { id := "e1", event_type := "ping" ++ "_failed",
          payload := .obj
            [("error", .str (AgentError.NotFound "no handler").toDisplay),
             ("command_id", .str "c9")],
          timestamp := 4, agent_id := crateNAME })] :=
  (claimC2_one_event_per_command (fun _ => .error (.NotFound "no handler"))
    "e1" 4 _).2.2.1 (.NotFound "no handler") rfl

/-- C3 counterexample: a query message carrying a reply address whose payload
does not decode (serde error text `expected value at line 1 column 1`) is
answered, but the error field is `Invalid query format: <parse error>` — the
source formats the parse error into the string — not the exact string
`Invalid query format` the claim states. -/
theorem claimC3_counterexample :
    processQueryMessage (fun _ => .ok .null) (some "inbox")
        (.error "expected value at line 1 column 1") =
      [.obj [("success", .bool false),
             ("error",
              .str "Invalid query format: expected value at line 1 column 1")]] ∧
    "Invalid query format: expected value at line 1 column 1" ≠
      "Invalid query format" := by
  constructor
  · show [JsonValue.obj [("success", .bool false),
      ("error", .str ("Invalid query format: " ++
        "expected value at line 1 column 1"))]] = _
    have h : "Invalid query format: " ++ "expected value at line 1 column 1" =
        "Invalid query format: expected value at line 1 column 1" := by decide
    rw [h]
  · decide

/-- C3 (amended): for every inbound query message carrying a reply address the
query loop sends exactly one reply — `{success: true, result}` on handler
success, `{success: false, error}` on handler failure, and
`{success: false, error: "Invalid query format: <parse error>"}` when the
payload does not decode (the parse error text is appended after a colon); a
message with no reply address receives no reply at all. -/
theorem claimC3_one_reply_per_query
    (handler : AgentQuery → Except AgentError JsonValue) (addr : String) :
    (∀ d, processQueryMessage handler none d = []) ∧
    (∀ q r, handler q = .ok r →
      processQueryMessage handler (some addr) (.ok q) =
        [.obj [("success", .bool true), ("result", r)]]) ∧
    (∀ q e, handler q = .error e →
      processQueryMessage handler (some addr) (.ok q) =
        [.obj [("success", .bool false), ("error", .str e.toDisplay)]]) ∧
    (∀ perr, processQueryMessage handler (some addr) (.error perr) =
      [.obj [("success", .bool false),
             ("error", .str ("Invalid query format: " ++ perr))]]) ∧
    (∀ d, (processQueryMessage handler (some addr) d).length = 1) := by
  refine ⟨fun _ => rfl, ?_, ?_, fun _ => rfl, ?_⟩
  · intro q r h
    simp [processQueryMessage, h]
  · intro q e h
    simp [processQueryMessage, h]
  · intro d
    cases d with
    | error perr => rfl
    | ok q => cases h : handler q <;> simp [processQueryMessage, h]

/-- C3 witness: the amended statement evaluated on a concrete well-framed
query with a succeeding handler — exactly one `{success: true, result}`
reply. -/
theorem claimC3_one_reply_witness :
    processQueryMessage (fun _ => .ok (.str "fifteen")) (some "inbox")
        (.ok { id := "q1", query_type := "list_concepts", parameters := .null,
               timestamp := 0, origin := "test" }) =
      [.obj [("success", .bool true), ("result", .str "fifteen")]] :=
  (claimC3_one_reply_per_query (fun _ => .ok (.str "fifteen")) "inbox").2.1
    _ (.str "fifteen") rfl

/-- C4 (code bug): the Scenario D policy would mandate the delay schedule
100, 200, 400, 800, 1600 ms (`specRetryDelayMs`, modelled from the spec),
but everything `NatsClient::new` derives from the retry configuration is
`natsConnectRetrySetup` — `max_reconnects := max_attempts` plus
`retry_on_initial_connect` — which is unchanged when `initial_delay` is
altered to a value that mandates a different schedule.  The `initial_delay`,
`max_delay` and `multiplier` fields of `RetryConfig` (documented in
`src/config.rs` as the retry delays and backoff multiplier) are dead: no
code reads them, so the code cannot perform the claimed policy-driven
backoff. -/
theorem claimC4_delay_fields_unused :
    natsConnectRetrySetup retryPolicyD =
      { maxReconnects := 5, retryOnInitialConnect := true } ∧
    (List.range 5).map (specRetryDelayMs retryPolicyD) =
      [100, 200, 400, 800, 1600] ∧
    natsConnectRetrySetup { retryPolicyD with initial_delay_ms := 999 } =
      natsConnectRetrySetup retryPolicyD ∧
    specRetryDelayMs { retryPolicyD with initial_delay_ms := 999 } 0 ≠
      specRetryDelayMs retryPolicyD 0 := by
  refine ⟨rfl, ?_, rfl, ?_⟩
  · simp [specRetryDelayMs, retryPolicyD, List.range, List.range.loop]
    norm_num
  · simp [specRetryDelayMs, retryPolicyD]
    norm_num

/-- C5 (confirmed): when the external generator call inside
`process_dialog_message` fails, the error propagates unchanged to the caller
(the spec taxonomy calls the generator failure a ModelError; `src/error.rs`
names the variant `ModelProvider`), and the stored dialog still holds the
`User` turn appended from the message — the turn list of the map entry is
the prior turn list with exactly the user turn from this message appended,
and no `Assistant` turn is produced. -/
theorem claimC5_generator_failure (agentId : String) (uuid : Nat → String)
    (provider : ModelRequest → Except AgentError ModelResponse)
    (now : Nat) (st : AgentState) (msg : DialogMessage) (e : AgentError)
    (h : provider (modelRequestFor agentId st uuid msg) = .error e) :
    (process_dialog_message agentId uuid provider now st msg).1 = .error e ∧
    assocGet (process_dialog_message agentId uuid provider now st msg).2.dialogs
        msg.dialog_id = some (dialogAfterUserTurn st uuid msg) ∧
    (dialogAfterUserTurn st uuid msg).turns =
      ((assocGet st.dialogs msg.dialog_id).getD
          (newEmptyDialog (uuid 0))).turns ++ [userTurnOf (uuid 1) msg] := by
  refine ⟨?_, ?_, rfl⟩
  · simp [process_dialog_message, h]
  · simp [process_dialog_message, h, assocGet_assocPut]

/-- C5 witness: a concrete failing generator — the `ModelProvider` error is
returned and the stored dialog ends with the user turn of the message. -/
theorem claimC5_generator_failure_witness :
    (process_dialog_message "agent" (fun n => toString n)
        (fun _ => .error (.ModelProvider "backend down")) 9
        { dialogs := [], workflows := [] }
        { dialog_id := "d1", content := "hello", sender := "u1",
          metadata := .null, timestamp := 5 }).1 =
      .error (.ModelProvider "backend down") ∧
    assocGet (process_dialog_message "agent" (fun n => toString n)
        (fun _ => .error (.ModelProvider "backend down")) 9
        { dialogs := [], workflows := [] }
        { dialog_id := "d1", content := "hello", sender := "u1",
          metadata := .null, timestamp := 5 }).2.dialogs "d1" =
      some (dialogAfterUserTurn { dialogs := [], workflows := [] }
        (fun n => toString n)
        { dialog_id := "d1", content := "hello", sender := "u1",
          metadata := .null, timestamp := 5 }) :=
  ⟨(claimC5_generator_failure "agent" (fun n => toString n)
      (fun _ => .error (.ModelProvider "backend down")) 9
      { dialogs := [], workflows := [] }
      { dialog_id := "d1", content := "hello", sender := "u1",
        metadata := .null, timestamp := 5 }
      (.ModelProvider "backend down") rfl).1,
   (claimC5_generator_failure "agent" (fun n => toString n)
      (fun _ => .error (.ModelProvider "backend down")) 9
      { dialogs := [], workflows := [] }
      { dialog_id := "d1", content := "hello", sender := "u1",
        metadata := .null, timestamp := 5 }
      (.ModelProvider "backend down") rfl).2.1⟩

/-- C6 counterexample: the user turn carries the sender-supplied message
timestamp while the assistant turn carries the local clock at response time,
so a message stamped after that clock value (here timestamp 1 processed at
clock 0) yields the turn timestamps [1, 0] — a successful round whose turn
timestamps are not in non-decreasing order. -/
theorem claimC6_counterexample :
    ((assocGet (process_dialog_message "agent" (fun n => toString n)
        (fun _ => .ok { content := "hi", usage := ⟨0, 0, 0⟩, metadata := .null,
                        duration := 0 })
        0 { dialogs := [], workflows := [] }
        { dialog_id := "d1", content := "question", sender := "u1",
          metadata := .null, timestamp := 1 }).2.dialogs "d1").map
      (fun d => d.turns.map Turn.timestamp)) = some [1, 0] ∧
    ¬ List.Chain' (fun a b => a ≤ b) [1, 0] := by
  refine ⟨rfl, ?_⟩
  simp [List.chain'_cons]

/-- C6 (amended): for a dialogId not yet in the session store, one successful
`process_dialog_message` call leaves a dialog with exactly 2 turns — first a
`User` turn holding the message content, then an `Assistant` turn holding the
generated text — and the turn timestamps are non-decreasing provided the
inbound message timestamp is not later than the clock value at which the
assistant turn is created (the source never enforces this: the user turn
keeps the sender-supplied timestamp). -/
theorem claimC6_fresh_dialog_amended (agentId : String) (uuid : Nat → String)
    (provider : ModelRequest → Except AgentError ModelResponse)
    (now : Nat) (st : AgentState) (msg : DialogMessage) (resp : ModelResponse)
    (hfresh : assocGet st.dialogs msg.dialog_id = none)
    (hok : provider (modelRequestFor agentId st uuid msg) = .ok resp)
    (hts : msg.timestamp ≤ now) :
    (process_dialog_message agentId uuid provider now st msg).1 =
      .ok resp.content ∧
    ∃ d, assocGet (process_dialog_message agentId uuid provider
          now st msg).2.dialogs msg.dialog_id = some d ∧
      d.turns.length = 2 ∧
      d.turns.map Turn.turn_type = [TurnType.User, TurnType.Assistant] ∧
      d.turns.map (fun t => t.message.content) =
        [MessageContent.Text msg.content, MessageContent.Text resp.content] ∧
      d.turns.map Turn.timestamp = [msg.timestamp, now] ∧
      List.Chain' (fun a b => a ≤ b) (d.turns.map Turn.timestamp) := by
  constructor
  · simp [process_dialog_message, hok]
  · simp only [process_dialog_message, hok]
    refine ⟨_, assocGet_assocPut _ _ _, ?_, ?_, ?_, ?_, ?_⟩ <;>
      simp [dialogAfterUserTurn, hfresh, newEmptyDialog, userTurnOf, hts]

/-- C6 witness: a concrete fresh dialog, message timestamp 3 processed at
clock 5, generator answering `sure` — two turns User then Assistant with the
message and response contents and timestamps [3, 5]. -/
theorem claimC6_fresh_dialog_witness :
    (process_dialog_message "agent" (fun n => toString n)
        (fun _ => .ok { content := "sure", usage := ⟨1, 2, 3⟩,
                        metadata := .null, duration := 0 })
        5 { dialogs := [], workflows := [] }
        { dialog_id := "d1", content := "hello", sender := "u1",
          metadata := .null, timestamp := 3 }).1 = .ok "sure" ∧
    ∃ d, assocGet (process_dialog_message "agent" (fun n => toString n)
          (fun _ => .ok { content := "sure", usage := ⟨1, 2, 3⟩,
                          metadata := .null, duration := 0 })
          5 { dialogs := [], workflows := [] }
          { dialog_id := "d1", content := "hello", sender := "u1",
            metadata := .null, timestamp := 3 }).2.dialogs "d1" = some d ∧
      d.turns.length = 2 ∧
      d.turns.map Turn.turn_type = [TurnType.User, TurnType.Assistant] ∧
      d.turns.map (fun t => t.message.content) =
        [MessageContent.Text "hello", MessageContent.Text "sure"] ∧
      d.turns.map Turn.timestamp = [3, 5] ∧
      List.Chain' (fun a b => a ≤ b) (d.turns.map Turn.timestamp) :=
  claimC6_fresh_dialog_amended "agent" (fun n => toString n)
    (fun _ => .ok { content := "sure", usage := ⟨1, 2, 3⟩,
                    metadata := .null, duration := 0 })
    5 { dialogs := [], workflows := [] }
    { dialog_id := "d1", content := "hello", sender := "u1",
      metadata := .null, timestamp := 3 }
    { content := "sure", usage := ⟨1, 2, 3⟩, metadata := .null, duration := 0 }
    rfl rfl (by decide)

/-- C7 counterexample: before `start` no health subscription exists, so a
health query receives no reply at all rather than an Unhealthy one; after
`start` the reply status is the hardcoded literal `"Running"` and
`active_dialogs` the hardcoded `0` (the `status_fn` closure reads no service
state), so the reply does not reflect the actual state. -/
theorem claimC7_counterexample :
    healthReply agentServiceNew "0.1.0" 7 (some "inbox") = none ∧
    (healthReply (agentServiceStart agentServiceNew) "0.1.0" 7
        (some "inbox")).map HealthResponse.status = some "Running" ∧
    (healthReply (agentServiceStart agentServiceNew) "0.1.0" 7
        (some "inbox")).map HealthResponse.active_dialogs = some 0 := by
  exact ⟨rfl, rfl, rfl⟩

/-- C7 (amended): a health query received before the supervisor has been
started receives no reply (the health subscription does not exist yet); after
`start`, every health query carrying a reply address receives exactly the
constant record `{status: "Running", version, uptimeSeconds: elapsed time
since service creation, modelStatus: "healthy", activeDialogs: 0, metadata:
agent name and the five capability flags}` — the status, model status and
dialog count are hardcoded (`TODO` comments in `src/service.rs` lines
261-265) rather than derived from the actual service state; a health message
without a reply address receives no reply. -/
theorem claimC7_health_amended (version : String) (elapsed : Nat)
    (addr : String) :
    (∀ r, healthReply agentServiceNew version elapsed r = none) ∧
    healthReply (agentServiceStart agentServiceNew) version elapsed
        (some addr) =
      some { status := "Running", version := version,
             uptime_seconds := elapsed, model_status := "healthy",
             active_dialogs := 0,
             metadata := .obj
               [("agent_name", .str crateNAME),
                ("capabilities", .obj
                  [("explain_concepts", .bool true),
                   ("visualize_architecture", .bool true),
                   ("guide_workflows", .bool true),
                   ("analyze_patterns", .bool true),
                   ("suggest_improvements", .bool true)])] } ∧
    healthReply (agentServiceStart agentServiceNew) version elapsed none =
      none := by
  exact ⟨fun _ => rfl, rfl, rfl⟩

/-- C8 (confirmed): a command whose type matches no known tag yields the
`NotFound` handler error, leaves the dialog and workflow maps (the whole
agent state) unchanged, and the command loop still publishes exactly the one
`<commandType>_failed` event for it. -/
theorem claimC8_unknown_command (agentId agentName : String)
    (uuid : Nat → String)
    (provider : ModelRequest → Except AgentError ModelResponse)
    (now : Nat) (st : AgentState) (cmd : AgentCommand)
    (eid : String) (enow : Nat)
    (h1 : cmd.command_type ≠ "start_dialog")
    (h2 : cmd.command_type ≠ "explain_concept")
    (h3 : cmd.command_type ≠ "visualize_architecture")
    (h4 : cmd.command_type ≠ "guide_workflow")
    (h5 : cmd.command_type ≠ "analyze_pattern") :
    process_command agentId agentName uuid provider now st cmd =
      (.error (.NotFound ("Unknown command type: " ++ cmd.command_type)),
       st) ∧
    processCommandMessage
        (fun c => (process_command agentId agentName uuid provider now st c).1)
        eid enow (.ok cmd) =
      [(eventsErrorSubject,
        { id := eid
          event_type := cmd.command_type ++ "_failed"
          payload := .obj
            [("error", .str (AgentError.NotFound
                ("Unknown command type: " ++ cmd.command_type)).toDisplay),
             ("command_id", .str cmd.id)]
          timestamp := enow
          agent_id := crateNAME })] := by
  have hpc : process_command agentId agentName uuid provider now st cmd =
      (.error (.NotFound ("Unknown command type: " ++ cmd.command_type)),
       st) := by
    unfold process_command
    split <;> simp_all
  refine ⟨hpc, ?_⟩
  have hfst : (process_command agentId agentName uuid provider now st cmd).1 =
      .error (.NotFound ("Unknown command type: " ++ cmd.command_type)) := by
    rw [hpc]
  simp [processCommandMessage, hfst]

/-- C8 witness: the unknown command type `foo` on a concrete state — the
`NotFound` error, the untouched state and the single `foo_failed` event. -/
theorem claimC8_unknown_command_witness :
    process_command "agent" "Alchemist" (fun n => toString n)
        (fun _ => .error (.Internal "unused")) 0
        { dialogs := [], workflows := [] }
        { id := "c7", command_type := "foo", payload := .null,
          timestamp := 1, origin := "test" } =
      (.error (.NotFound ("Unknown command type: " ++ "foo")),
       { dialogs := [], workflows := [] }) ∧
    processCommandMessage
        (fun c => (process_command "agent" "Alchemist" (fun n => toString n)
          (fun _ => .error (.Internal "unused")) 0
          { dialogs := [], workflows := [] } c).1)
        "e2" 6
        (.ok { id := "c7", command_type := "foo", payload := .null,
               timestamp := 1, origin := "test" }) =
      [(eventsErrorSubject,
        { id := "e2"
          event_type := "foo" ++ "_failed"
          payload := .obj
            [("error", .str (AgentError.NotFound
                ("Unknown command type: " ++ "foo")).toDisplay),
             ("command_id", .str "c7")]
          timestamp := 6
          agent_id := crateNAME })] :=
  claimC8_unknown_command "agent" "Alchemist" (fun n => toString n)
    (fun _ => .error (.Internal "unused")) 0
    { dialogs := [], workflows := [] }
    { id := "c7", command_type := "foo", payload := .null,
      timestamp := 1, origin := "test" }
    "e2" 6 (by decide) (by decide) (by decide) (by decide) (by decide)

/-- C9 (confirmed): a `start_dialog` command whose payload carries the
user-id field (`user_id` in the wire format, `userId` in the naming of the
specification) with value `u1` creates a dialog whose participants are
exactly `[agentId, "u1"]`, with status `Active` and no turns. -/
theorem claimC9_start_dialog (agentId agentName : String)
    (uuid : Nat → String) (st : AgentState) (payload : JsonValue)
    (h : payload.get "user_id" = .str "u1") :
    ∃ d, assocGet (start_dialog agentId agentName uuid st payload).2.dialogs
        (uuid 0) = some d ∧
      d.participants = [agentId, "u1"] ∧
      d.status = DialogStatus.Active ∧
      d.turns = [] := by
  refine ⟨_, assocGet_assocPut _ _ _, ?_, rfl, rfl⟩
  simp [h, JsonValue.asStr]

/-- C9 witness: a concrete `start_dialog` payload with `user_id = "u1"`. -/
theorem claimC9_start_dialog_witness :
    ∃ d, assocGet (start_dialog "agent-1" "Alchemist" (fun n => toString n)
        { dialogs := [], workflows := [] }
        (.obj [("user_id", .str "u1")])).2.dialogs
        ((fun n => toString n) 0) = some d ∧
      d.participants = ["agent-1", "u1"] ∧
      d.status = DialogStatus.Active ∧
      d.turns = [] :=
  claimC9_start_dialog "agent-1" "Alchemist" (fun n => toString n)
    { dialogs := [], workflows := [] }
    (.obj [("user_id", .str "u1")]) rfl

/-- C10 (confirmed): the history handed to the external generator inside
`process_dialog_message` is built after the new `User` turn has been
appended: the request prompt is the raw message content, the request history
is the map of the full turn list including the appended user turn (one entry
longer than the prior turn list, never limited to prior turns), and its
final entry is the current message again with role `user`. -/
theorem claimC10_history_includes_current (agentId : String)
    (st : AgentState) (uuid : Nat → String) (msg : DialogMessage) :
    (modelRequestFor agentId st uuid msg).prompt = msg.content ∧
    (modelRequestFor agentId st uuid msg).history =
      (((assocGet st.dialogs msg.dialog_id).getD
          (newEmptyDialog (uuid 0))).turns ++ [userTurnOf (uuid 1) msg]).map
        Turn.toModelMessage ∧
    (modelRequestFor agentId st uuid msg).history.getLast? =
      some { role := "user", content := msg.content,
             timestamp := msg.timestamp } ∧
    (modelRequestFor agentId st uuid msg).history.length =
      ((assocGet st.dialogs msg.dialog_id).getD
          (newEmptyDialog (uuid 0))).turns.length + 1 := by
  refine ⟨rfl, rfl, ?_, ?_⟩
  · show ((((assocGet st.dialogs msg.dialog_id).getD
        (newEmptyDialog (uuid 0))).turns ++ [userTurnOf (uuid 1) msg]).map
          Turn.toModelMessage).getLast? = _
    rw [List.map_append]
    simp [userTurnOf, Turn.toModelMessage]
  · simp [modelRequestFor, dialogAfterUserTurn]
